import Mathlib

/-!
Verification of the guess-note program (src/src/main.rs) against its
natural-language specification.  Each Rust function or code region that the
claims mention is shallowly embedded as an executable Lean definition;
machine integers are modelled as `Nat`/`Int` (the program only uses `u8`,
`i16`, `usize` values that stay far from overflow, except where a theorem
checks the bound explicitly), and the `f32` arithmetic of the target
generator is modelled exactly with rational numbers plus IEEE-754
round-to-nearest-even rounding.
-/

/-! ## Note Namer (src/src/main.rs, lines 32-43, `note_number_to_sign`) -/

/-- The sharped variant of a natural pitch-class name. -/
def sharp (s : String) : String := s ++ "#"

/-- The `SIGNS` table of pitch-class names (line 34): C, C#, D, D#, E, F,
F#, G, G#, A, A#, B. -/
def SIGNS : List String :=
  ["C", sharp "C", "D", sharp "D", "E", "F", sharp "F",
    "G", sharp "G", "A", sharp "A", "B"]

/-- Rust `format!` right-alignment to a minimum width (the `{:>2}` format
spec on line 39 pads the string on the left with spaces up to width `w`). -/
def padLeft (w : Nat) (s : String) : String :=
  String.mk (List.replicate (w - s.length) ' ') ++ s

/-- Embedding of `note_number_to_sign` (lines 32-43): the pitch class is
`SIGNS[x % 12]` rendered right-aligned in width 2, followed by the octave
`i16::from(x) / 12 - 1` rendered in decimal.  The argument is a `u8`,
modelled as a natural number below 256 at the call sites. -/
def note_number_to_sign (x : Nat) : String :=
  padLeft 2 (SIGNS.getD (x % 12) "") ++ toString ((x : Int) / 12 - 1)

/-- Note Namer as the spec describes it, amended only by the width-2
right-alignment of the pitch class that the source's format string forces:
pitch class chosen from the table by `x mod 12` (padded with one leading
space when it is a single character), immediately followed by the octave
`x / 12 - 1` (signed integer division). -/
def noteNameSpec (x : Nat) : String :=
  let pitch := SIGNS.getD (x % 12) ""
  let padded := if pitch.length < 2 then " " ++ pitch else pitch
  padded ++ toString ((x : Int) / 12 - 1)

/-- The octave computation of line 41, carried out in `i16` as in the
source: `i16::from(x) / 12 - 1`.  Returns `none` when the result would
overflow the `i16` range (it never does for `u8` inputs). -/
def note_octave_i16 (x : Nat) : Option Int :=
  let q : Int := (x : Int) / 12
  if -(2 ^ 15) ≤ q - 1 ∧ q - 1 < 2 ^ 15 then some (q - 1) else none

/-- Panic-checked variant of `note_number_to_sign`: the table access
`SIGNS[usize::from(x) % SIGN_COUNT]` is modelled with `List.get?` (so an
out-of-bounds index would yield `none`, the model of a Rust panic), and the
octave is computed through `note_octave_i16` (so an `i16` overflow would
also yield `none`). -/
def note_number_to_sign_checked (x : Nat) : Option String :=
  match SIGNS.get? (x % 12), note_octave_i16 x with
  | some sign, some oct => some (padLeft 2 sign ++ toString oct)
  | _, _ => none

example : note_number_to_sign 0 = " C-1" := by decide
example : note_number_to_sign 60 = " C4" := by decide
example : note_number_to_sign 127 = " G9" := by decide
example : note_number_to_sign 255 = "D#20" := by decide

/-! ## Target generation (src/src/main.rs, lines 112-114)

`rand::random::<f32>() * (args.max_note - args.min_note) as f32 + args.min_note as f32`
followed by `as u8`.  The uniform `f32` sample is a multiple of `2^-24` in
`[0, 1)` (24-bit-precision sampling), and every value in the computation is
a nonnegative dyadic rational, so the `f32` arithmetic is modelled exactly:
a value is a mantissa times a power of two, products and sums are computed
exactly and then rounded to 24 significant bits with IEEE-754
round-to-nearest, ties-to-even.  All values stay far inside the normal
range of `f32`, so exponent overflow and subnormals need no modelling. -/

/-- Floor of the base-2 logarithm, by structural recursion on a fuel bound
(`log2_fuel n n` halves `n` until it drops below 2, and `n` halvings always
suffice). -/
def log2_fuel : Nat → Nat → Nat
  | 0, _ => 0
  | fuel + 1, n => if n < 2 then 0 else log2_fuel fuel (n / 2) + 1

/-- Floor of the base-2 logarithm of a positive natural number. -/
def nat_log2 (n : Nat) : Nat := log2_fuel n n

/-- A nonnegative dyadic rational `m * 2^e`, the exact value of an `f32`
quantity appearing in the target-generation expression. -/
structure Dyadic where
  m : Nat
  e : Int
deriving DecidableEq

/-- Integer power of two as a rational number. -/
def pow2 (e : Int) : ℚ :=
  if 0 ≤ e then ((2 ^ e.toNat : Nat) : ℚ) else ((2 ^ (-e).toNat : Nat) : ℚ)⁻¹

/-- The rational value denoted by a dyadic number. -/
def Dyadic.val (x : Dyadic) : ℚ := (x.m : ℚ) * pow2 x.e

/-- Exact product of two dyadic numbers. -/
def dmul (x y : Dyadic) : Dyadic := ⟨x.m * y.m, x.e + y.e⟩

/-- Exact sum of two dyadic numbers (align exponents, add mantissas). -/
def dadd (x y : Dyadic) : Dyadic :=
  let e := min x.e y.e
  ⟨x.m * 2 ^ (x.e - e).toNat + y.m * 2 ^ (y.e - e).toNat, e⟩

/-- IEEE-754 binary32 rounding of a nonnegative dyadic value in the normal
range: keep at most 24 significant bits, rounding to nearest with ties to
even.  A value already representable in 24 bits is returned unchanged. -/
def fround (x : Dyadic) : Dyadic :=
  if x.m = 0 then ⟨0, 0⟩
  else
    let b := nat_log2 x.m + 1
    if b ≤ 24 then x
    else
      let s := b - 24
      let q := x.m / 2 ^ s
      let r := x.m % 2 ^ s
      let half := 2 ^ (s - 1)
      let q2 :=
        if r < half then q
        else if half < r then q + 1
        else if q % 2 = 0 then q else q + 1
      ⟨q2, x.e + s⟩

/-- Truncation of a nonnegative dyadic value to a natural number (the
integer part, as in Rust `as` casts from a float). -/
def dtruncNat (x : Dyadic) : Nat :=
  if 0 ≤ x.e then x.m * 2 ^ x.e.toNat else x.m / 2 ^ (-x.e).toNat

/-- Embedding of the target-note computation (lines 112-114):
`(r * (max_note - min_note) as f32 + min_note as f32) as u8`, with each
`f32` operation rounded by `fround`.  The subtraction is the `u8`
subtraction of the source, well defined because startup has already checked
`min_note <= max_note`; the final `as u8` cast truncates and saturates at
255 (the value is always nonnegative). -/
def guess_note_f32 (min_note max_note : Nat) (r : Dyadic) : Nat :=
  let d : Nat := max_note - min_note
  let p := fround (dmul r ⟨d, 0⟩)
  let s := fround (dadd p ⟨min_note, 0⟩)
  min 255 (dtruncNat s)

/-! ## Event Bridge (src/src/main.rs, lines 93, 116-124)

The program uses an `std::sync::mpsc` channel: the input callback pushes
note bytes with `tx.send`, and the game loop consumes them with the capture
helper of lines 116-124 (`rx.try_iter().last()` falling back to
`rx.recv()?`).  The channel is modelled by its queue of pending events plus
a flag recording whether the producer side has been dropped.  Per the mpsc
contract, `try_iter` drains and yields every buffered event (even when the
sender is gone) and never errors, while `recv` on an empty queue blocks if
a sender is alive and fails with a receive error once the sender has been
dropped. -/

/-- State of the event-bridge channel: the FIFO queue of pending note
events (oldest first) and whether the producer has been dropped. -/
structure ChannelState where
  queue : List Nat
  closed : Bool
deriving DecidableEq

/-- The producer push (`tx.send(message[1])`, line 103): appends at the
back of the queue. -/
def push (q : List Nat) (e : Nat) : List Nat := q ++ [e]

/-- Result of one evaluation of the capture helper: it returns an event
immediately (leaving the given remaining queue), or it blocks inside
`rx.recv()` waiting for a producer that is still alive, or `rx.recv()`
fails because the producer was dropped and nothing is buffered. -/
inductive CaptureResult where
  | ret (note : Nat) (remaining : List Nat)
  | blocks
  | err
deriving DecidableEq

/-- Embedding of the capture helper (lines 116-124): `rx.try_iter().last()`
drains every queued event and keeps the last one; when the queue is empty
it falls through to `rx.recv()?`, which blocks while the producer is alive
and errors once it has been dropped. -/
def capture_next_note (s : ChannelState) : CaptureResult :=
  match s.queue.getLast? with
  | some x => .ret x []
  | none => if s.closed then .err else .blocks

/-- What the round engine's loop does with the capture result: the `?`
operator on `rx.recv()` (line 121) propagates the receive error out of
`main`, ending the game. -/
inductive LoopOutcome where
  | nextStep (note : Nat)
  | waits
  | fatal
deriving DecidableEq

/-- The game loop's use of the capture helper: a received note continues
the round, an empty open channel leaves the loop blocked, and a receive
error is propagated by `?` as a fatal error terminating `main`. -/
def loop_capture (s : ChannelState) : LoopOutcome :=
  match capture_next_note s with
  | .ret x _ => .nextStep x
  | .blocks => .waits
  | .err => .fatal

/-! ## MIDI input callback (src/src/main.rs, lines 95-106) -/

/-- Status byte of a note-on message (line 8). -/
def NOTE_ON : Nat := 0x90

/-- Status byte of a note-off message (line 9). -/
def NOTE_OFF : Nat := 0x80

/-- Embedding of the input-callback filter (lines 98-104): a raw message is
forwarded exactly when it is a three-byte slice `[x, _, z]` with
`(x == NOTE_ON || x == NOTE_OFF) && z != 0`, in which case the second byte
(the note number) is sent into the channel; every other message returns
early and is dropped.  `some b` means `b` is pushed, `none` means the
message is discarded. -/
def callback_filter (message : List Nat) : Option Nat :=
  match message with
  | [x, y, z] => if (x = NOTE_ON ∨ x = NOTE_OFF) ∧ z ≠ 0 then some y else none
  | _ => none

/-- The forwarding rule in the words of the claim (for refutation): forward
the second byte when the message is a note-on, or a note-off with non-zero
third byte.  Under this rule a zero-velocity note-on would be forwarded. -/
def claimed_filter (message : List Nat) : Option Nat :=
  match message with
  | [x, y, z] => if x = NOTE_ON ∨ (x = NOTE_OFF ∧ z ≠ 0) then some y else none
  | _ => none

/-! ## Confirmation loop and resolution (src/src/main.rs, lines 141-169) -/

/-- ASCII lower-casing of a string, character by character (the effect of
Rust `to_lowercase()` on console input). -/
def lower_string (s : String) : String := String.mk (s.data.map Char.toLower)

/-- Removal of leading and trailing whitespace (the effect of Rust
`trim()` on console input). -/
def trim_string (s : String) : String :=
  String.mk
    (((s.data.dropWhile Char.isWhitespace).reverse.dropWhile
        Char.isWhitespace).reverse)

/-- Normalisation applied to a confirmation line (line 148):
`read_line!().trim().to_lowercase()`. -/
def normalize_answer (r : String) : String := lower_string (trim_string r)

/-- Embedding of the interactive confirmation loop (lines 143-155).
`captures i` is the note delivered by the `i`-th capture of the round
(`captures 0` is the note captured on line 141, before the loop).  The
second argument lists the console responses, and `i` counts how many
replays have happened so far.  Each response other than `"y"` (after
trimming and lower-casing) triggers one replay of the target note and one
further capture; on `"y"` the loop breaks, resolving with the current note
and reporting the replay count.  `none` means the response list was
exhausted with no confirmation. -/
def confirm_loop (captures : Nat → Nat) : List String → Nat → Option (Nat × Nat)
  | [], _ => none
  | r :: rs, i =>
    if normalize_answer r = "y" then some (captures i, i)
    else confirm_loop captures rs (i + 1)

/-- The note used for resolution (lines 141-156): in non-interactive mode
the confirmation loop is skipped and the first captured note is used
directly; in interactive mode the loop runs on the console responses. -/
def final_note (non_interactive : Bool) (captures : Nat → Nat)
    (responses : List String) : Option Nat :=
  if non_interactive then some (captures 0)
  else (confirm_loop captures responses 0).map Prod.fst

/-- The resolution comparison (line 158): `note == guess_note` by exact
numeric equality. -/
def round_outcome (note guess : Nat) : Bool := note == guess

/-- The message printed on a correct guess (lines 159-162). -/
def correct_message (note : Nat) : String :=
  "Correct, you played the right note (" ++ note_number_to_sign note ++ ")"

/-- The message printed on an incorrect guess (lines 163-168). -/
def incorrect_message (note guess : Nat) : String :=
  "Incorrect, you played " ++ note_number_to_sign note ++
    ", but the right one is " ++ note_number_to_sign guess

/-- Embedding of the resolution printing (lines 158-169). -/
def resolve_message (note guess : Nat) : String :=
  if round_outcome note guess then correct_message note
  else incorrect_message note guess

/-! ## Startup (src/src/main.rs, lines 61-91) -/

/-- Embedding of the note-range validation (lines 63-65):
`if args.min_note > args.max_note { anyhow::bail!("Note range cannot be empty") }`. -/
def check_note_range (min_note max_note : Nat) : Except String Unit :=
  if min_note > max_note then .error "Note range cannot be empty" else .ok ()

/-- The startup sequence up to the device constructors (lines 63-68): the
range check runs first; only when it passes are the two MIDI device
handles created.  The first component lists the device names opened (in
order), the second is the startup error, if any. -/
def startup_sequence (min_note max_note : Nat) : List String × Option String :=
  match check_note_range min_note max_note with
  | .error e => ([], some e)
  | .ok _ => (["guess-note-input", "guess-note-output"], none)

/-- Embedding of the console port parse (lines 85-88):
`read_line!().trim().parse::<usize>()`.  Rust's unsigned parse accepts an
optional leading `+` followed by at least one digit. -/
def parse_port (line : String) : Option Nat :=
  let t := (trim_string line).data
  let t2 := if t.take 1 = ['+'] then t.drop 1 else t
  if t2 ≠ [] ∧ t2.all Char.isDigit then
    some (t2.foldl (fun acc c => acc * 10 + (c.toNat - 48)) 0)
  else none

/-- Outcome of the port-selection phase of startup. -/
inductive StartupResult where
  | ok (port : Nat)
  | deviceErr
  | parseErr
  | panics
deriving DecidableEq

/-- Embedding of port selection and port indexing (lines 73-91).  When
`port_no` is given on the command line it is used unchecked; otherwise the
program bails with the "No available MIDI ports found" device error when
the output-port list is empty, then parses a port number from the console
(a parse failure is the `InputParseError` path).  The chosen index is then
used to subscript `out_ports` (line 90) and `in_ports` (line 91), which
panics when the index is out of bounds for either list. -/
def select_port (port_no_arg : Option Nat) (num_out num_in : Nat)
    (line : String) : StartupResult :=
  let chosen : StartupResult :=
    match port_no_arg with
    | some p => .ok p
    | none =>
      if num_out = 0 then .deviceErr
      else
        match parse_port line with
        | some p => .ok p
        | none => .parseErr
  match chosen with
  | .ok p => if p < num_out ∧ p < num_in then .ok p else .panics
  | r => r

/-! ## Helper lemmas -/

/-- Pushing a list of events one by one into an empty queue yields that
list. -/
lemma foldl_push_eq (es : List Nat) : ∀ q : List Nat, es.foldl push q = q ++ es := by
  induction es with
  | nil => intro q; simp [List.foldl]
  | cons e es ih => intro q; simp [List.foldl, push, ih, List.append_assoc]

/-- The capture helper on a non-empty queue returns the most recent event
and drains the queue, regardless of whether the producer is still alive. -/
lemma capture_next_note_of_ne (q : List Nat) (c : Bool) (h : q ≠ []) :
    capture_next_note ⟨q, c⟩ = .ret (q.getLast h) [] := by
  unfold capture_next_note
  rw [List.getLast?_eq_getLast q h]

/-- Running the confirmation loop over responses that all normalise to
something other than "y", followed by a final "y", from replay counter `i`. -/
lemma confirm_loop_run (captures : Nat → Nat) :
    ∀ rs : List String, (∀ r ∈ rs, normalize_answer r ≠ "y") →
      ∀ i, confirm_loop captures (rs ++ ["y"]) i =
        some (captures (i + rs.length), i + rs.length) := by
  intro rs
  induction rs with
  | nil =>
    intro _ i
    simp only [List.nil_append, confirm_loop, List.length_nil, Nat.add_zero]
    rw [if_pos (by decide : normalize_answer "y" = "y")]
  | cons r rs ih =>
    intro h i
    have hr : normalize_answer r ≠ "y" := h r (List.mem_cons_self r rs)
    simp only [List.cons_append, confirm_loop, if_neg hr]
    show confirm_loop captures (rs ++ ["y"]) (i + 1) = _
    rw [ih (fun a ha => h a (List.mem_cons_of_mem r ha)) (i + 1)]
    simp only [List.length_cons]
    have e1 : i + 1 + rs.length = i + (rs.length + 1) := by omega
    rw [e1]

/-! ## Claims -/

/-- C1: for every sequence of N >= 1 events pushed into the queue followed
by one capture with no concurrent pushes, the capture returns exactly the
last pushed event without blocking (`ret`, not `blocks`) and leaves the
queue empty; a capture on an empty queue blocks, and after one push it
returns exactly that new event (so no previously returned event can be
returned again). -/
theorem c1_capture_semantics (es : List Nat) (e : Nat) :
    capture_next_note ⟨(es ++ [e]).foldl push [], false⟩ = .ret e [] ∧
    capture_next_note ⟨[], false⟩ = .blocks ∧
    capture_next_note ⟨push [] e, false⟩ = .ret e [] := by
  refine ⟨?_, rfl, rfl⟩
  rw [foldl_push_eq, List.nil_append]
  unfold capture_next_note
  rw [List.getLast?_concat]

/-- C2: evaluation of the target generator at the failing input.  The
sample `(2^24 - 1) * 2^-24` is a valid value of the uniform `[0,1)` `f32`
sample (the largest one the 24-bit sampler can produce), yet with
`min_note = 36`, `max_note = 96` the `f32` computation rounds to exactly
`96.0` (the final addition lands on a tie, which rounds to the even
mantissa), and the `as u8` cast yields 96 — the value the claim says is
never produced. -/
theorem c2_f32_boundary_hit :
    0 ≤ Dyadic.val ⟨2 ^ 24 - 1, -24⟩ ∧ Dyadic.val ⟨2 ^ 24 - 1, -24⟩ < 1 ∧
    guess_note_f32 36 96 ⟨2 ^ 24 - 1, -24⟩ = 96 := by
  have h : Dyadic.val ⟨2 ^ 24 - 1, -24⟩ = (2 ^ 24 - 1) / 2 ^ 24 := by
    simp [Dyadic.val, pow2]
    norm_num
  refine ⟨?_, ?_, by decide⟩ <;> rw [h] <;> norm_num

/-- C3 counterexample: `[0x90, 60, 0]` is a note-on message (status byte
`NOTE_ON`), which the claim says is forwarded; the code drops it because
its third byte (velocity) is zero, while the claim's forwarding rule would
forward note 60. -/
theorem c3_counterexample :
    callback_filter [144, 60, 0] = none ∧
    claimed_filter [144, 60, 0] = some 60 ∧ (144 : Nat) = NOTE_ON := by decide

/-- C3 amended: the callback forwards a message's second byte if and only
if the message is exactly three bytes whose first byte is note-on or
note-off and whose third byte (velocity) is non-zero — so a zero-velocity
note-on is dropped just like a zero-velocity note-off; every other raw
message is silently dropped. -/
theorem c3_filter_iff (message : List Nat) (b : Nat) :
    callback_filter message = some b ↔
      message.length = 3 ∧
        (message.getD 0 0 = NOTE_ON ∨ message.getD 0 0 = NOTE_OFF) ∧
        message.getD 2 0 ≠ 0 ∧ message.getD 1 0 = b := by
  match message with
  | [] => simp [callback_filter]
  | [x] => simp [callback_filter]
  | [x, y] => simp [callback_filter]
  | [x, y, z] =>
    constructor
    · intro hy
      simp only [callback_filter] at hy
      split_ifs at hy with h
      injection hy with hy
      exact ⟨rfl, h.1, h.2, hy⟩
    · rintro ⟨-, h1, h2, h3⟩
      simp only [callback_filter]
      rw [if_pos ⟨h1, h2⟩]
      exact congrArg some h3
  | x :: y :: z :: w :: rest =>
    constructor
    · intro hy
      exact absurd hy (by simp [callback_filter])
    · intro hy
      have hl := hy.1
      simp only [List.length_cons] at hl
      omega

/-- C4: in interactive mode, a run of responses that each normalise to
something other than "y", followed by a final "y", performs exactly one
replay (and one further capture) per non-"y" response — the loop returns
the replay count `rs.length` — resolves with exactly the note captured
after the last replay (`captures rs.length`), and does so for a response
list of any length (no retry bound). -/
theorem c4_confirm_replays (captures : Nat → Nat) (rs : List String)
    (h : ∀ r ∈ rs, normalize_answer r ≠ "y") :
    confirm_loop captures (rs ++ ["y"]) 0 =
      some (captures rs.length, rs.length) := by
  simpa using confirm_loop_run captures rs h 0

/-- C4 witness: two refusals then a confirmation yield two replays and
resolve with the note of capture number 2. -/
theorem c4_witness :
    (∀ r ∈ ["n", "N o"], normalize_answer r ≠ "y") ∧
    confirm_loop (fun i => 10 + i) (["n", "N o"] ++ ["y"]) 0 = some (12, 2) := by
  refine ⟨by decide, ?_⟩
  have h := c4_confirm_replays (fun i => 10 + i) ["n", "N o"] (by decide)
  simpa using h

/-- C5 counterexample: the incorrect-guess message printed by the code has
a comma before "but" (`"Incorrect, you played {}, but the right one is {}"`,
lines 164-168), so it is not the claim's template
"Incorrect, you played X but the right one is Y". -/
theorem c5_counterexample :
    resolve_message 60 62 = "Incorrect, you played  C4, but the right one is  D4" ∧
    resolve_message 60 62 ≠
      "Incorrect, you played " ++ note_number_to_sign 60 ++
        " but the right one is " ++ note_number_to_sign 62 := by decide

/-- C5 amended: in non-interactive mode the confirmation loop is skipped
and the first captured note is used directly; the outcome is Correct if and
only if the captured note equals the target by exact numeric equality, and
otherwise the printed message is "Incorrect, you played X, but the right
one is Y" (with a comma before "but"), X and Y rendered by the Note Namer
from the captured and target notes respectively. -/
theorem c5_resolution (c t : Nat) (captures : Nat → Nat) (rs : List String) :
    final_note true captures rs = some (captures 0) ∧
    (round_outcome c t = true ↔ c = t) ∧
    (c ≠ t → resolve_message c t =
      "Incorrect, you played " ++ note_number_to_sign c ++
        ", but the right one is " ++ note_number_to_sign t) := by
  refine ⟨rfl, by simp [round_outcome], ?_⟩
  intro hne
  simp [resolve_message, round_outcome, incorrect_message, hne]

/-- C5 witness: instantiating the amended claim at captured note 60 and
target 62. -/
theorem c5_witness :
    (60 : Nat) ≠ 62 ∧
    resolve_message 60 62 =
      "Incorrect, you played " ++ note_number_to_sign 60 ++
        ", but the right one is " ++ note_number_to_sign 62 :=
  ⟨by decide, (c5_resolution 60 62 (fun _ => 0) []).2.2 (by decide)⟩

/-- C6 counterexample: the Note Namer right-aligns the pitch class in width
2 (the format spec on line 39), so `name(0)` is " C-1" (with a leading
space), not the claim's "C-1". -/
theorem c6_counterexample :
    note_number_to_sign 0 = " C-1" ∧ note_number_to_sign 0 ≠ "C-1" := by decide

/-- C6 amended: for every note value in [0,127] the Note Namer returns the
pitch class selected from the table by `n mod 12`, right-aligned to width 2
(a single-character pitch class is preceded by one space), immediately
followed by the octave `n / 12 - 1` (signed integer division), with no
other characters; in particular `name(0) = " C-1"`, `name(60) = " C4"`
and `name(127) = " G9"`. -/
theorem c6_name_format (x : Nat) (h : x ≤ 127) :
    note_number_to_sign x = noteNameSpec x ∧
    note_number_to_sign 0 = " C-1" ∧ note_number_to_sign 60 = " C4" ∧
    note_number_to_sign 127 = " G9" := by
  refine ⟨?_, by decide, by decide, by decide⟩
  have H : ∀ y, y < 128 → note_number_to_sign y = noteNameSpec y := by decide
  exact H x (by omega)

/-- C6 witness: instantiating the amended claim at note 60. -/
theorem c6_witness :
    (60 : Nat) ≤ 127 ∧
    (note_number_to_sign 60 = noteNameSpec 60 ∧
      note_number_to_sign 0 = " C-1" ∧ note_number_to_sign 60 = " C4" ∧
      note_number_to_sign 127 = " G9") :=
  ⟨by decide, c6_name_format 60 (by decide)⟩

/-- C7: the capture helper fails exactly when the producer side has been
dropped and no event remains queued (then `rx.recv()` returns a receive
error); with events queued it returns the most recent one (even if the
producer is gone), with an empty queue and a live producer it blocks, and a
failure is propagated by the `?` operator as a fatal error terminating the
game loop. -/
theorem c7_channel_closed_iff (s : ChannelState) :
    (capture_next_note s = .err ↔ s.closed = true ∧ s.queue = []) ∧
    (∀ h : s.queue ≠ [], capture_next_note s = .ret (s.queue.getLast h) []) ∧
    (s.queue = [] → s.closed = false → capture_next_note s = .blocks) ∧
    (capture_next_note s = .err → loop_capture s = .fatal) := by
  obtain ⟨q, c⟩ := s
  refine ⟨?_, ?_, ?_, ?_⟩
  · cases q with
    | nil =>
      cases c with
      | false => simp [capture_next_note]
      | true => simp [capture_next_note]
    | cons a l =>
      rw [capture_next_note_of_ne (a :: l) c (by simp)]
      simp
  · intro h
    exact capture_next_note_of_ne q c h
  · intro h1 h2
    subst h1; subst h2
    rfl
  · intro h
    simp [loop_capture, h]

/-- C7 witness: a dropped producer with an empty queue yields the channel
error, and the loop treats it as fatal. -/
theorem c7_witness :
    capture_next_note ⟨[], true⟩ = .err ∧ loop_capture ⟨[], true⟩ = .fatal := by
  have h := (c7_channel_closed_iff ⟨[], true⟩).1.mpr ⟨rfl, rfl⟩
  exact ⟨h, (c7_channel_closed_iff ⟨[], true⟩).2.2.2 h⟩

/-- C8 counterexample: with `port_no = 0` supplied and no ports available,
the code skips the "No available MIDI ports found" check (it sits in the
interactive-prompt branch only) and panics on the slice index at line 90
instead of failing with a reported device error. -/
theorem c8_counterexample :
    select_port (some 0) 0 0 "" = .panics ∧
    select_port (some 0) 0 0 "" ≠ .deviceErr := by decide

/-- C8 amended: when `port_no` is absent and no output ports are found the
program bails with the DeviceError before the game loop; but an
out-of-range port index — supplied as the `port_no` option (for which the
empty-port check is skipped entirely) or read from the console — makes the
program panic on slice indexing (fatal, before the game loop) rather than
fail with a reported DeviceError; in all cases the game loop is only
entered with an index valid for both port lists. -/
theorem c8_startup_ports (arg : Option Nat) (num_out num_in : Nat) (line : String) :
    (arg = none → num_out = 0 → select_port arg num_out num_in line = .deviceErr) ∧
    (∀ p, arg = some p → num_out ≤ p → select_port arg num_out num_in line = .panics) ∧
    (∀ p, select_port arg num_out num_in line = .ok p → p < num_out ∧ p < num_in) := by
  refine ⟨?_, ?_, ?_⟩
  · intro ha h0
    subst ha
    simp [select_port, h0]
  · intro p ha hp
    subst ha
    simp only [select_port]
    rw [if_neg]
    intro hc
    omega
  · intro p hok
    rcases arg with _ | a
    · by_cases h0 : num_out = 0
      · simp [select_port, h0] at hok
      · rcases hp : parse_port line with _ | q
        · simp [select_port, h0, hp] at hok
        · simp only [select_port, h0, if_false, hp] at hok
          split_ifs at hok with hcond
          injection hok with hok
          subst hok
          exact hcond
    · simp only [select_port] at hok
      split_ifs at hok with hcond
      injection hok with hok
      subst hok
      exact hcond

/-- C8 witness: no ports and no option yields the device error; an
out-of-range option index panics. -/
theorem c8_witness :
    select_port none 0 0 "" = .deviceErr ∧
    select_port (some 5) 3 3 "" = .panics :=
  ⟨(c8_startup_ports none 0 0 "").1 rfl rfl,
    (c8_startup_ports (some 5) 3 3 "").2.1 5 rfl (by omega)⟩

/-- C9: a configuration with `min_note > max_note` fails startup with the
ConfigurationError "Note range cannot be empty" (lines 63-65) before any
MIDI device handle is created — the trace of opened devices is empty — so
the game loop is never entered. -/
theorem c9_range_check (a b : Nat) (h : b < a) :
    startup_sequence a b = ([], some "Note range cannot be empty") := by
  simp [startup_sequence, check_note_range, h]

/-- C9 witness: `min_note = 96, max_note = 36` fails startup before any
device is opened. -/
theorem c9_witness :
    36 < 96 ∧ startup_sequence 96 36 = ([], some "Note range cannot be empty") :=
  ⟨by decide, c9_range_check 96 36 (by decide)⟩

set_option maxRecDepth 8192 in
/-- C10: the Note Namer is total over the whole `u8` domain: for every
`x < 256` the panic-checked variant (bounds-checked table access, octave
computed within the `i16` range) succeeds and agrees with the plain
function — the table index `x mod 12` is always in bounds and the octave
`x / 12 - 1` cannot overflow the `i16` used for it. -/
theorem c10_namer_total (x : Nat) (h : x < 256) :
    note_number_to_sign_checked x = some (note_number_to_sign x) := by
  have H : ∀ y, y < 256 → note_number_to_sign_checked y = some (note_number_to_sign y) := by
    decide
  exact H x h

/-- C10 witness: the extreme raw byte 255 is named without panicking, with
octave 20. -/
theorem c10_witness :
    (255 : Nat) < 256 ∧
    note_number_to_sign_checked 255 = some (note_number_to_sign 255) ∧
    note_octave_i16 255 = some 20 ∧ note_number_to_sign 255 = "D#20" :=
  ⟨by decide, c10_namer_total 255 (by decide), by decide, by decide⟩
